import Mathlib

/-!
Shallow embedding of the chat client in `src/src/components/ChatContainer.tsx`
(realtime chat session orchestrator and message reconciler).

The component's React state hooks become fields of `ChatState`; `localStorage`
becomes the `storedSessionId` field; the socket reference becomes the
`socketQuery` field (the session id the socket was opened with, `none` when no
socket exists).  Each socket handler and each public operation of the component
becomes a function `ChatState -> ... -> ChatState` (paired with a list of
`Effect`s when the code emits on the transport or triggers an HTTP call).
Asynchronous HTTP calls are split into a start phase (the synchronous code
before `await`) and a resolve phase (the continuation applied to the settled
result), so interleavings of in-flight requests can be expressed as sequences
of phase applications.
-/

namespace NewsChat

/-- Message, as used by ChatContainer.tsx.  The `isComplete` field is optional
in the TypeScript type (the user message built in `sendMessage` omits it), so
it is modelled as `Option Bool`; the JavaScript truthiness test
`if (message.isComplete)` holds exactly when the field is `some true`. -/
structure Message where
  role : String
  content : String
  timestamp : String
  isComplete : Option Bool
deriving DecidableEq, Repr

/-- Activity status type tag: 'idle' | 'typing' | 'processing'. -/
inductive StatusType where
  | idle
  | typing
  | processing
deriving DecidableEq, Repr

/-- ChatStatus from ChatContainer.tsx: a type tag plus optional message. -/
structure ChatStatus where
  type : StatusType
  message : Option String
deriving DecidableEq, Repr

/-- Session list entry from ChatContainer.tsx. -/
structure Session where
  sessionId : String
  lastMessage : String
  timestamp : String
deriving DecidableEq, Repr

/-- The component state: each `useState` hook of ChatContainer, plus the
localStorage key `chatSessionId` (`storedSessionId`) and the socket reference
(`socketQuery`: the sessionId the socket connection was opened with, `none`
when `socketRef.current` is null). -/
structure ChatState where
  messages : List Message
  sessionId : String
  isLoading : Bool
  isHistoryLoading : Bool
  error : Option String
  streamedMessage : Option Message
  status : ChatStatus
  sessions : List Session
  storedSessionId : Option String
  socketQuery : Option String
deriving DecidableEq, Repr

/-- Observable side effects of the handlers: a socket emission, an HTTP call
being triggered, or a socket (re)connection. -/
inductive Effect where
  | emitMessage (message : String) (sessionId : String)
  | fetchSessionsCall
  | fetchChatCall (sessionId : String)
  | deleteChatCall (sessionId : String)
  | openSocket (sessionId : String)
deriving DecidableEq, Repr

/-- Socket handler for 'session' events: adopt and persist the
server-assigned sessionId (`setSessionId`; `localStorage.setItem`). -/
def onSession (st : ChatState) (sid : String) : ChatState :=
  { st with sessionId := sid, storedSessionId := some sid }

/-- Socket handler for 'message' events: when `message.isComplete` is truthy,
clear the streamed placeholder, append the message, clear the loading flag and
refresh the session list; otherwise do nothing. -/
def onMessage (st : ChatState) (m : Message) : ChatState × List Effect :=
  if m.isComplete = some true then
    ({ st with streamedMessage := none,
               messages := st.messages ++ [m],
               isLoading := false },
     [Effect.fetchSessionsCall])
  else
    (st, [])

/-- Socket handler for 'message-stream' events: unconditionally replace the
streamed placeholder. -/
def onMessageStream (st : ChatState) (m : Message) : ChatState :=
  { st with streamedMessage := some m }

/-- Socket handler for 'status' events: replace the status wholesale. -/
def onStatus (st : ChatState) (s : ChatStatus) : ChatState :=
  { st with status := s }

/-- Socket handler for application-level 'error' events: set the error
message, clear the loading flag, and reset the status to idle. -/
def onSocketError (st : ChatState) : ChatState :=
  { st with error := some "An error occurred with the chat connection. Please try again later.",
            isLoading := false,
            status := { type := StatusType.idle, message := none } }

/-- The synthetic user message built in `sendMessage` (note: no `isComplete`
field is set in the source). -/
def userMessage (content ts : String) : Message :=
  { role := "user", content := content, timestamp := ts, isComplete := none }

/-- A character removed by JavaScript `String.prototype.trim()`: the
ECMAScript WhiteSpace set (TAB U+0009, VT U+000B, FF U+000C, SP U+0020,
NBSP U+00A0, ZWNBSP U+FEFF, and the Unicode Space_Separator category
U+1680, U+2000..U+200A, U+202F, U+205F, U+3000) together with the
LineTerminator set (LF U+000A, CR U+000D, LS U+2028, PS U+2029). -/
def isJsWhitespace (c : Char) : Bool :=
  let n := c.toNat
  n = 0x9 || n = 0xA || n = 0xB || n = 0xC || n = 0xD || n = 0x20 ||
  n = 0xA0 || n = 0x1680 || (0x2000 ≤ n && n ≤ 0x200A) ||
  n = 0x2028 || n = 0x2029 || n = 0x202F || n = 0x205F || n = 0x3000 ||
  n = 0xFEFF

/-- The JavaScript guard `!content.trim()`: true exactly when the content is
empty or consists only of characters `trim()` removes. -/
def isBlank (content : String) : Bool :=
  content.data.all isJsWhitespace

/-- sendMessage: returns early when the trimmed content is empty
(`!content.trim()`) or no socket exists (`!socketRef.current`); otherwise
optimistically appends the user message, sets the loading flag, clears the
error, and emits the 'message' event with the current sessionId. -/
def sendMessage (st : ChatState) (content ts : String) : ChatState × List Effect :=
  if isBlank content || st.socketQuery.isNone then
    (st, [])
  else
    ({ st with messages := st.messages ++ [userMessage content ts],
               isLoading := true,
               error := none },
     [Effect.emitMessage content st.sessionId])

/-- Start phase of `fetchChatHistory(sid)`: the synchronous code before the
`await` (`setIsHistoryLoading(true); setError(null)`); the request carries
`sid` but the component records nothing about it. -/
def fetchChatHistoryStart (st : ChatState) : ChatState :=
  { st with isHistoryLoading := true, error := none }

/-- Resolve phase of `fetchChatHistory`: the continuation after the `await`.
On success `setMessages(data.messages || [])`; on failure set the error
message and leave the transcript untouched; `finally` clears the
history-loading flag.  Note: the continuation does not compare the request's
sessionId against the currently active one — there is no stale-response
guard in the source. -/
def fetchChatHistoryResolve (st : ChatState)
    (r : Except String (Option (List Message))) : ChatState :=
  match r with
  | Except.ok d =>
      { st with messages := d.getD [], isHistoryLoading := false }
  | Except.error _ =>
      { st with error := some "Unable to load chat history. Please try again later.",
                isHistoryLoading := false }

/-- Start phase of `fetchSessions()`: `setIsHistoryLoading(true)`. -/
def fetchSessionsStart (st : ChatState) : ChatState :=
  { st with isHistoryLoading := true }

/-- Resolve phase of `fetchSessions`: on success
`setSessions(data.sessions || [])`; on failure fall back to the empty list and
set the error message; `finally` clears the history-loading flag. -/
def fetchSessionsResolve (st : ChatState)
    (r : Except String (Option (List Session))) : ChatState :=
  match r with
  | Except.ok d =>
      { st with sessions := d.getD [], isHistoryLoading := false }
  | Except.error _ =>
      { st with sessions := [],
                error := some "No chat sessions available.",
                isHistoryLoading := false }

/-- clearChat: issues `DELETE /chat/{sessionId}` (an effect in both branches);
on a 2xx response clears messages, the streamed placeholder and the error and
refreshes the session list; on failure (non-2xx throws inside
`fetchWithTimeout`, as does a timeout) only the error message is set. -/
def clearChat (st : ChatState) (deleteResult : Except String Unit) :
    ChatState × List Effect :=
  match deleteResult with
  | Except.ok _ =>
      ({ st with messages := [], streamedMessage := none, error := none },
       [Effect.deleteChatCall st.sessionId, Effect.fetchSessionsCall])
  | Except.error _ =>
      ({ st with error := some "Failed to clear chat history. Please try again." },
       [Effect.deleteChatCall st.sessionId])

/-- The initial hook values of the component before the mount effect runs. -/
def initialState : ChatState :=
  { messages := []
    sessionId := ""
    isLoading := false
    isHistoryLoading := true
    error := none
    streamedMessage := none
    status := { type := StatusType.idle, message := none }
    sessions := []
    storedSessionId := none
    socketQuery := none }

/-- initComponent: the mount effect of ChatContainer: read `chatSessionId` from localStorage,
fall back to a freshly minted uuid, persist it when it was absent, open the
socket scoped to it, and trigger the transcript fetch for it plus the session
list fetch.  `stored` is the localStorage content at mount, `fresh` the uuid
`uuidv4()` would mint. -/
def initComponent (stored : Option String) (fresh : String) : ChatState × List Effect :=
  let currentSessionId := match stored with
    | some s => s
    | none => fresh
  let newStored := match stored with
    | some s => some s
    | none => some currentSessionId
  (fetchSessionsStart (fetchChatHistoryStart
    { initialState with sessionId := currentSessionId,
                        storedSessionId := newStored,
                        socketQuery := some currentSessionId }),
   [Effect.openSocket currentSessionId,
    Effect.fetchChatCall currentSessionId,
    Effect.fetchSessionsCall])

/-- Synchronous part of `switchSession(newSessionId)`: persist and adopt the
new id and reconnect the socket scoped to it.  The awaited
`fetchChatHistory(newSessionId)` follows as `fetchChatHistoryStart` /
`fetchChatHistoryResolve` phases. -/
def switchSessionStart (st : ChatState) (newId : String) : ChatState × List Effect :=
  ({ st with storedSessionId := some newId,
             sessionId := newId,
             socketQuery := some newId },
   [Effect.openSocket newId, Effect.fetchChatCall newId])

/-- Synchronous part of `createNewSession()`: mint and persist a fresh id,
reconnect the socket scoped to it, and reset transcript, placeholder and
error; the session list refresh follows. -/
def createNewSession (st : ChatState) (fresh : String) : ChatState × List Effect :=
  ({ st with storedSessionId := some fresh,
             sessionId := fresh,
             socketQuery := some fresh,
             messages := [],
             streamedMessage := none,
             error := none },
   [Effect.openSocket fresh, Effect.fetchSessionsCall])

/-- The reconciler-facing operations of the component: the three message/status
socket handlers, a user submission, and a full transcript reset (the common
state reset performed by a successful clearChat and by createNewSession, and
by switchSession before the new transcript arrives). -/
inductive Op where
  | delta (m : Message)
  | final (m : Message)
  | statusEv (s : ChatStatus)
  | submit (content : String) (ts : String)
  | reset
deriving DecidableEq, Repr

/-- One reconciler operation applied to the state (effects dropped). -/
def step (st : ChatState) : Op → ChatState
  | Op.delta m => onMessageStream st m
  | Op.final m => (onMessage st m).1
  | Op.statusEv s => onStatus st s
  | Op.submit content ts => (sendMessage st content ts).1
  | Op.reset => { st with messages := [], streamedMessage := none, error := none }

/-- A sequence of reconciler operations applied in arrival order. -/
def run (st : ChatState) (ops : List Op) : ChatState :=
  ops.foldl step st

/-- A concrete completed assistant message from session A. -/
def msgA : Message :=
  { role := "assistant", content := "reply stored in session A", timestamp := "t1", isComplete := some true }

/-- A concrete completed assistant message from session B. -/
def msgB : Message :=
  { role := "assistant", content := "reply stored in session B", timestamp := "t2", isComplete := some true }

/-- Execution schedule exhibiting the stale-fetch overwrite: the component
mounts with persisted session "A" and its transcript fetch is still in
flight when the user switches to session "B"; the fetch for "B" resolves
first (with B's transcript), then the stale fetch for "A" resolves (with A's
transcript).  Each line is the corresponding phase of the source functions. -/
def staleFetchFinal : ChatState :=
  let st0 := (initComponent (some "A") "unused-fresh-id").1
  let st1 := (switchSessionStart st0 "B").1
  let st2 := fetchChatHistoryStart st1
  let st3 := fetchChatHistoryResolve st2 (Except.ok (some [msgB]))
  fetchChatHistoryResolve st3 (Except.ok (some [msgA]))

/-- Folding any list of deltas through the 'message-stream' handler leaves the
transcript untouched. -/
theorem foldl_onMessageStream_messages (ds : List Message) (st : ChatState) :
    (ds.foldl onMessageStream st).messages = st.messages := by
  induction ds generalizing st with
  | nil => rfl
  | cons d ds ih =>
    rw [List.foldl_cons]
    exact ih (onMessageStream st d)

/-- C1: on a message-final event whose completion flag is true, the in-progress
placeholder is cleared, the message is appended at the end of the transcript,
and a session-list refresh is triggered; with completion flag false the event
is rejected: the state (transcript, placeholder, loading flag included) is
returned unchanged and no effect is produced. -/
theorem final_event_reconciliation (st : ChatState) (m : Message) :
    (m.isComplete = some true →
      (onMessage st m).1.streamedMessage = none ∧
      (onMessage st m).1.messages = st.messages ++ [m] ∧
      Effect.fetchSessionsCall ∈ (onMessage st m).2) ∧
    (m.isComplete = some false →
      onMessage st m = (st, [])) := by
  constructor
  · intro h
    simp [onMessage, h]
  · intro h
    simp [onMessage, h]

/-- C1 witness: the theorem applied to the initial state, once with a
completed message and once with an incomplete one. -/
theorem final_event_reconciliation_witness :
    ((onMessage initialState msgA).1.messages = initialState.messages ++ [msgA]) ∧
    (onMessage initialState { msgA with isComplete := some false } = (initialState, [])) :=
  ⟨((final_event_reconciliation initialState msgA).1 rfl).2.1,
   (final_event_reconciliation initialState { msgA with isComplete := some false }).2 rfl⟩

/-- C2: the source has no stale-response guard, and the claimed discarding
does not happen.  In the schedule `staleFetchFinal` — a transcript fetch for
session "A" is in flight when the user switches to session "B"; the fetch for
"B" lands first, then the stale fetch for "A" lands — the final state has
active session "B" but session A's transcript: the stale result overwrote the
newly active session's transcript. -/
theorem stale_fetch_overwrites :
    staleFetchFinal.sessionId = "B" ∧
    staleFetchFinal.messages = [msgA] ∧
    staleFetchFinal.messages ≠ [msgB] := by
  refine ⟨rfl, rfl, ?_⟩
  decide

/-- C3: a nonempty sequence of message-delta events, each handled by the
'message-stream' handler, leaves the in-progress placeholder equal to the most
recent delta (each delta fully replaces the previous one) and the transcript
unchanged. -/
theorem delta_sequence_replaces (st : ChatState) (ds : List Message) (m : Message) :
    (((ds ++ [m]).foldl onMessageStream st).streamedMessage = some m) ∧
    (((ds ++ [m]).foldl onMessageStream st).messages = st.messages) := by
  constructor
  · rw [List.foldl_append]
    rfl
  · rw [List.foldl_append, List.foldl_cons, List.foldl_nil]
    exact foldl_onMessageStream_messages ds st

/-- Every reconciler operation other than a reset only appends to the
transcript (possibly appending nothing). -/
theorem step_messages_append (st : ChatState) (op : Op) (h : op ≠ Op.reset) :
    ∃ t, (step st op).messages = st.messages ++ t := by
  cases op with
  | delta m => exact ⟨[], by simp [step, onMessageStream]⟩
  | final m =>
    by_cases hc : m.isComplete = some true
    · exact ⟨[m], by simp [step, onMessage, hc]⟩
    · exact ⟨[], by simp [step, onMessage, hc]⟩
  | statusEv s => exact ⟨[], by simp [step, onStatus]⟩
  | submit content ts =>
    by_cases hc : (isBlank content || st.socketQuery.isNone) = true
    · exact ⟨[], by simp [step, sendMessage, hc]⟩
    · exact ⟨[userMessage content ts], by simp [step, sendMessage, hc]⟩
  | reset => exact absurd rfl h

/-- A single reconciler operation never puts a message with completion flag
`some false` into the transcript. -/
theorem step_preserves_no_false (st : ChatState) (op : Op)
    (h : ∀ m ∈ st.messages, m.isComplete ≠ some false) :
    ∀ m ∈ (step st op).messages, m.isComplete ≠ some false := by
  cases op with
  | delta m => exact h
  | final m =>
    by_cases hc : m.isComplete = some true
    · intro x hx
      simp [step, onMessage, hc] at hx
      rcases hx with hx | hx
      · exact h x hx
      · rw [hx, hc]
        simp
    · intro x hx
      simp [step, onMessage, hc] at hx
      exact h x hx
  | statusEv s => exact h
  | submit content ts =>
    by_cases hc : (isBlank content || st.socketQuery.isNone) = true
    · intro x hx
      simp [step, sendMessage, hc] at hx
      exact h x hx
    · intro x hx
      simp [step, sendMessage, hc] at hx
      rcases hx with hx | hx
      · exact h x hx
      · rw [hx]
        simp [userMessage]
  | reset =>
    intro x hx
    simp [step] at hx

/-- C4 counterexample: from a freshly mounted component, the single reconciler
operation of submitting the text "hello" reaches a state whose transcript
holds the synthetic user message, which carries no completion flag — so the
reachable-state property "the transcript contains only messages whose
completion flag is true" is false. -/
theorem reachable_transcript_not_all_true :
    ¬ (∀ m ∈ (run (initComponent (some "sess-1") "fresh-id").1
          [Op.submit "hello" "t0"]).messages,
        m.isComplete = some true) := by
  decide

/-- C4 amended: in every state reachable by reconciler operations from a state
whose transcript has no message with completion flag false, the transcript
still has no message with completion flag false (message-final appends only
flag-true messages; optimistic user submissions carry no flag at all rather
than flag true); moreover every operation except a full reset only appends to
the transcript (no removal), and the in-progress placeholder is a single
optional slot, so at most one in-progress message exists. -/
theorem reconciler_invariant (st : ChatState) (ops : List Op)
    (h0 : ∀ m ∈ st.messages, m.isComplete ≠ some false) :
    (∀ m ∈ (run st ops).messages, m.isComplete ≠ some false) ∧
    (∀ st2 op, op ≠ Op.reset → ∃ t, (step st2 op).messages = st2.messages ++ t) := by
  constructor
  · induction ops generalizing st with
    | nil => exact h0
    | cons op ops ih => exact ih (step st op) (step_preserves_no_false st op h0)
  · intro st2 op hop
    exact step_messages_append st2 op hop

/-- C4 amended witness: the invariant applied to the freshly mounted state and
a concrete run of five operations. -/
theorem reconciler_invariant_witness :
    (∀ m ∈ (run (initComponent (some "sess-1") "fresh-id").1
        [Op.submit "hello" "t0", Op.delta msgA, Op.final msgA,
         Op.statusEv { type := StatusType.idle, message := none }, Op.reset]).messages,
      m.isComplete ≠ some false) ∧
    (∀ st2 op, op ≠ Op.reset → ∃ t, (step st2 op).messages = st2.messages ++ t) :=
  reconciler_invariant (initComponent (some "sess-1") "fresh-id").1
    [Op.submit "hello" "t0", Op.delta msgA, Op.final msgA,
     Op.statusEv { type := StatusType.idle, message := none }, Op.reset]
    (by decide)

/-- C5: clearChat always issues the DELETE call for the current session; on a
2xx result it resets transcript, in-progress placeholder and error and
refreshes the session list; on a failed call (non-2xx or timeout, both thrown
by fetchWithTimeout) it sets the failure error message and leaves transcript
and placeholder unchanged. -/
theorem clear_chat_behaviour (st : ChatState) (r : Except String Unit) :
    (Effect.deleteChatCall st.sessionId ∈ (clearChat st r).2) ∧
    (r = Except.ok () →
      (clearChat st r).1.messages = [] ∧
      (clearChat st r).1.streamedMessage = none ∧
      (clearChat st r).1.error = none ∧
      Effect.fetchSessionsCall ∈ (clearChat st r).2) ∧
    (∀ e, r = Except.error e →
      (clearChat st r).1.error = some "Failed to clear chat history. Please try again." ∧
      (clearChat st r).1.messages = st.messages ∧
      (clearChat st r).1.streamedMessage = st.streamedMessage) := by
  refine ⟨?_, ?_, ?_⟩
  · cases r <;> simp [clearChat]
  · intro h
    subst h
    simp [clearChat]
  · intro e h
    subst h
    simp [clearChat]

/-- C5 witness: the theorem applied once to a successful delete and once to a
failed delete over a nonempty transcript. -/
theorem clear_chat_behaviour_witness :
    ((clearChat initialState (Except.ok ())).1.messages = []) ∧
    ((clearChat { initialState with messages := [msgA] }
        (Except.error "HTTP 500")).1.messages = [msgA]) :=
  ⟨((clear_chat_behaviour initialState (Except.ok ())).2.1 rfl).1,
   ((clear_chat_behaviour { initialState with messages := [msgA] }
      (Except.error "HTTP 500")).2.2 "HTTP 500" rfl).2.1⟩

/-- C6: a blank (empty or whitespace-only) submission is a complete no-op —
state returned unchanged and nothing emitted; a non-blank submission (with a
socket present) optimistically appends the synthetic user message before any
backend acknowledgment, sets the busy flag, and emits on the transport. -/
theorem send_message_guard (st : ChatState) (content ts : String) :
    (isBlank content = true → sendMessage st content ts = (st, [])) ∧
    (isBlank content = false → st.socketQuery.isNone = false →
      (sendMessage st content ts).1.messages = st.messages ++ [userMessage content ts] ∧
      (sendMessage st content ts).1.isLoading = true ∧
      (sendMessage st content ts).2 = [Effect.emitMessage content st.sessionId]) := by
  constructor
  · intro h
    simp [sendMessage, h]
  · intro h1 h2
    simp [sendMessage, h1, h2]

/-- C6 witness: the theorem applied to a whitespace-only input and to the
input "hi" on a freshly mounted state (socket present). -/
theorem send_message_guard_witness :
    (sendMessage (initComponent (some "A") "f").1 "   " "t0" = ((initComponent (some "A") "f").1, [])) ∧
    ((sendMessage (initComponent (some "A") "f").1 "hi" "t0").1.messages =
      (initComponent (some "A") "f").1.messages ++ [userMessage "hi" "t0"]) :=
  ⟨(send_message_guard (initComponent (some "A") "f").1 "   " "t0").1 (by decide),
   ((send_message_guard (initComponent (some "A") "f").1 "hi" "t0").2 (by decide) (by decide)).1⟩

/-- C7: on a 'session' event the server-provided id is adopted as the active
session and persisted to localStorage, whatever the previously resolved id
was; a subsequent non-blank sendMessage emits its payload with the newly
adopted session id. -/
theorem session_assigned_adoption (st : ChatState) (newId content ts : String)
    (hc : isBlank content = false) (hs : st.socketQuery.isNone = false) :
    (onSession st newId).sessionId = newId ∧
    (onSession st newId).storedSessionId = some newId ∧
    (sendMessage (onSession st newId) content ts).2 = [Effect.emitMessage content newId] := by
  refine ⟨rfl, rfl, ?_⟩
  simp [sendMessage, onSession, hc, hs]

/-- C7 witness: the theorem applied to the freshly mounted state with local id
"A", a server-assigned id "B" and the input "hi". -/
theorem session_assigned_adoption_witness :
    (onSession (initComponent (some "A") "f").1 "B").sessionId = "B" ∧
    (onSession (initComponent (some "A") "f").1 "B").storedSessionId = some "B" ∧
    (sendMessage (onSession (initComponent (some "A") "f").1 "B") "hi" "t0").2 =
      [Effect.emitMessage "hi" "B"] :=
  session_assigned_adoption (initComponent (some "A") "f").1 "B" "hi" "t0"
    (by decide) (by decide)

/-- C8 counterexample: with a nonempty transcript, a failed transcript fetch
leaves the transcript exactly as it was — the state does not fall back to an
empty result. -/
theorem failed_fetch_keeps_transcript :
    (fetchChatHistoryResolve { initialState with messages := [msgA] }
        (Except.error "network failure")).messages ≠ [] := by
  decide

/-- C8 amended: every History Loader failure is non-fatal — the resolve
continuations are total functions of the settled result (nothing is rethrown)
and each failure sets a user-visible error message; the session-list fetch
falls back to the empty list, while a failed transcript fetch leaves the
existing transcript unchanged rather than emptying it. -/
theorem history_loader_failures_degrade (st : ChatState) (e1 e2 : String) :
    ((fetchSessionsResolve st (Except.error e1)).sessions = [] ∧
     (fetchSessionsResolve st (Except.error e1)).error = some "No chat sessions available.") ∧
    ((fetchChatHistoryResolve st (Except.error e2)).messages = st.messages ∧
     (fetchChatHistoryResolve st (Except.error e2)).error =
       some "Unable to load chat history. Please try again later.") :=
  ⟨⟨rfl, rfl⟩, ⟨rfl, rfl⟩⟩

/-- C9: on mount, a persisted session id is used unmodified, otherwise the
freshly minted id is persisted before use; in either case the socket is opened
scoped to the resulting id and the transcript fetch for that id plus the
session-list fetch are triggered. -/
theorem init_component_spec (stored : Option String) (fresh : String) :
    (∀ s, stored = some s →
      (initComponent stored fresh).1.sessionId = s ∧
      (initComponent stored fresh).1.storedSessionId = some s) ∧
    (stored = none →
      (initComponent stored fresh).1.sessionId = fresh ∧
      (initComponent stored fresh).1.storedSessionId = some fresh) ∧
    (Effect.openSocket (initComponent stored fresh).1.sessionId ∈ (initComponent stored fresh).2) ∧
    (Effect.fetchChatCall (initComponent stored fresh).1.sessionId ∈ (initComponent stored fresh).2) ∧
    (Effect.fetchSessionsCall ∈ (initComponent stored fresh).2) := by
  refine ⟨?_, ?_, ?_, ?_, ?_⟩ <;>
    cases stored <;>
      simp [initComponent, initialState, fetchChatHistoryStart, fetchSessionsStart]

/-- C9 witness: the theorem applied once with a persisted id "A" and once with
an empty identity store. -/
theorem init_component_spec_witness :
    ((initComponent (some "A") "fresh-A").1.sessionId = "A") ∧
    ((initComponent none "fresh-A").1.sessionId = "fresh-A" ∧
     (initComponent none "fresh-A").1.storedSessionId = some "fresh-A") :=
  ⟨((init_component_spec (some "A") "fresh-A").1 "A" rfl).1,
   (init_component_spec none "fresh-A").2.1 rfl⟩

/-- C10: the application-level 'error' socket handler, besides setting the
user-visible error message, also clears the loading flag and resets the
activity status to idle. -/
theorem channel_error_resets (st : ChatState) :
    (onSocketError st).error =
      some "An error occurred with the chat connection. Please try again later." ∧
    (onSocketError st).status = { type := StatusType.idle, message := none } ∧
    (onSocketError st).isLoading = false :=
  ⟨rfl, rfl, rfl⟩

end NewsChat
